import Mathlib

/-!
Verification of the intelligent multi-entity search handler
(`exports.handler` and `calculateRelevance`).

Strings are modelled as `List Char`; JavaScript string operations
(`toLowerCase`, `trim`, `startsWith`, `includes`, `split(' ')`,
template literals, `||` fallbacks) are embedded as functions on
`List Char`.  Numeric scores use exact rational arithmetic `ℚ` for
the idealized semantics of `1 / (index + 1)` weights.  Timestamps
(`new Date().toISOString()`) are not modelled.  The external entity
store is a parameter: each category lookup is a function from the row
limit to a reply `{data, error}`, matching the supabase client, which
reports failures in-band rather than by rejection.
-/

namespace IntelligentSearch

/-- A JavaScript string, modelled as its list of characters. -/
abbrev JStr := List Char

/-- JS `s.toLowerCase()`. -/
def jsToLower (s : JStr) : JStr := s.map Char.toLower

/-- JS `s.trim()`: strip whitespace from both ends. -/
def jsTrim (s : JStr) : JStr :=
  ((s.dropWhile Char.isWhitespace).reverse.dropWhile Char.isWhitespace).reverse

/-- JS `s.split(sep)` for a one-character separator class: split at every
character satisfying `p`, keeping empty pieces (as JS does). -/
def splitOnChar (p : Char → Bool) : List Char → List (List Char)
  | [] => [[]]
  | c :: cs =>
    if p c then [] :: splitOnChar p cs
    else
      match splitOnChar p cs with
      | [] => [[c]]
      | w :: ws => (c :: w) :: ws

/-- JS `s.includes(sub)`. -/
def jsIncludes (s sub : JStr) : Bool := decide (sub <:+: s)

/-- JS `s.startsWith(pre)`. -/
def jsStartsWith (s pre : JStr) : Bool := decide (pre <+: s)

/-- The per-field contribution inside `calculateRelevance`'s `forEach`:
`term` is the already lower-cased search term, `field` the candidate field
(`none` = null/undefined), `index` the 0-based field position.
JS `if (!field) return;` skips null, undefined and the empty string. -/
def fieldContribution (term : JStr) (field : Option JStr) (index : Nat) : ℚ :=
  match field with
  | none => 0
  | some f =>
    if f.isEmpty then 0
    else
      let fieldValue := jsToLower f
      let weight : ℚ := 1 / (index + 1)
      if fieldValue = term then 100 * weight
      else if jsStartsWith fieldValue term then 80 * weight
      else if jsIncludes fieldValue term then 60 * weight
      else
        let words := splitOnChar (fun c => c = ' ') fieldValue
        let matchingWords := (words.filter (fun w => jsIncludes w term)).length
        if matchingWords > 0 then (30 * matchingWords / words.length) * weight
        else 0

/-- `calculateRelevance(searchTerm, ...fields)` from the source: lower-case
the term once, then sum the per-field contributions over the indexed fields. -/
def calculateRelevance (searchTerm : JStr) (fields : List (Option JStr)) : ℚ :=
  let term := jsToLower searchTerm
  (fields.enum.map (fun p => fieldContribution term p.2 p.1)).sum

/-- The per-field contribution exactly as the specification sentence words it:
0 only for null/absent fields (an empty-string field is compared like any
other), and the fuzzy branch splits the field value on whitespace. -/
def specFieldContribution (term : JStr) (field : Option JStr) (index : Nat) : ℚ :=
  match field with
  | none => 0
  | some f =>
    let fieldValue := jsToLower f
    let weight : ℚ := 1 / (index + 1)
    if fieldValue = term then 100 * weight
    else if jsStartsWith fieldValue term then 80 * weight
    else if jsIncludes fieldValue term then 60 * weight
    else
      let words := splitOnChar Char.isWhitespace fieldValue
      let matchingWords := (words.filter (fun w => jsIncludes w term)).length
      if matchingWords > 0 then (30 * matchingWords / words.length) * weight
      else 0

/-- The relevance formula as the specification words it (see
`specFieldContribution`). -/
def specRelevance (searchTerm : JStr) (fields : List (Option JStr)) : ℚ :=
  let term := jsToLower searchTerm
  (fields.enum.map (fun p => specFieldContribution term p.2 p.1)).sum

/-- The specification's per-field contribution amended at the one point the
code differs: a field that is the empty string is skipped (contributes 0)
just like a null/absent field. -/
def specFieldContributionAmended (term : JStr) (field : Option JStr) (index : Nat) : ℚ :=
  match field with
  | none => 0
  | some f =>
    if f.isEmpty then 0
    else specFieldContribution term (some f) index

/-- The amended specification formula: sum of `specFieldContributionAmended`
over the indexed fields. -/
def specRelevanceAmended (searchTerm : JStr) (fields : List (Option JStr)) : ℚ :=
  let term := jsToLower searchTerm
  (fields.enum.map (fun p => specFieldContributionAmended term p.2 p.1)).sum

/-- The first piece of `splitOnChar` is a prefix of the input, and every
piece is an infix of the input. -/
theorem splitOnChar_strong (p : Char → Bool) (l : List Char) :
    ∃ w ws, splitOnChar p l = w :: ws ∧ w <+: l ∧ ∀ u ∈ ws, u <:+: l := by
  induction l with
  | nil => exact ⟨[], [], rfl, List.nil_prefix, by simp⟩
  | cons c cs ih =>
    obtain ⟨w, ws, hw, hpre, hws⟩ := ih
    by_cases hc : p c
    · refine ⟨[], splitOnChar p cs, by simp [splitOnChar, hc], List.nil_prefix, ?_⟩
      intro u hu
      rw [hw] at hu
      rcases List.mem_cons.mp hu with rfl | hu
      · exact List.infix_cons hpre.isInfix
      · exact List.infix_cons (hws u hu)
    · obtain ⟨t, ht⟩ := hpre
      refine ⟨c :: w, ws, ?_, ⟨t, by simp [ht]⟩, ?_⟩
      · simp [splitOnChar, hc, hw]
      · intro u hu
        exact List.infix_cons (hws u hu)

/-- Every piece produced by `splitOnChar` is an infix of the input. -/
theorem splitOnChar_mem_isInfix (p : Char → Bool) (l : List Char) :
    ∀ w ∈ splitOnChar p l, w <:+: l := by
  obtain ⟨w, ws, hw, hpre, hws⟩ := splitOnChar_strong p l
  intro u hu
  rw [hw] at hu
  rcases List.mem_cons.mp hu with rfl | hu
  · exact hpre.isInfix
  · exact hws u hu

/-- If the term is not an infix of the whole field value, no split piece
contains it: the fuzzy branch's filter is empty. -/
theorem filter_includes_eq_nil (term fv : JStr) (p : Char → Bool)
    (h : ¬ term <:+: fv) :
    (splitOnChar p fv).filter (fun w => jsIncludes w term) = [] := by
  rw [List.filter_eq_nil_iff]
  intro w hw hinc
  simp only [jsIncludes, decide_eq_true_eq] at hinc
  exact h (hinc.trans (splitOnChar_mem_isInfix p fv w hw))

/-- Pointwise agreement of the code's per-field contribution with the
amended specification contribution. -/
theorem fieldContribution_eq_specAmended (term : JStr) (field : Option JStr) (index : Nat) :
    fieldContribution term field index = specFieldContributionAmended term field index := by
  cases field with
  | none => rfl
  | some f =>
    by_cases he : f.isEmpty
    · simp [fieldContribution, specFieldContributionAmended, he]
    · simp only [fieldContribution, specFieldContributionAmended, specFieldContribution, he,
        if_false, Bool.false_eq_true]
      by_cases h1 : jsToLower f = term
      · simp [h1]
      · simp only [h1, if_false]
        by_cases h2 : jsStartsWith (jsToLower f) term
        · simp [h2]
        · simp only [h2, if_false, Bool.false_eq_true]
          by_cases h3 : jsIncludes (jsToLower f) term
          · simp [h3]
          · simp only [h3, if_false, Bool.false_eq_true]
            have hni : ¬ term <:+: jsToLower f := by
              simpa [jsIncludes] using h3
            rw [filter_includes_eq_nil term (jsToLower f) (fun c => c = ' ') hni,
              filter_includes_eq_nil term (jsToLower f) Char.isWhitespace hni]
            simp

/-- C1 amended: for every query term and ordered field list, the relevance
score computed by `calculateRelevance` equals the specification's
weighted-sum formula once a field holding the empty string is treated like
a null/absent field (contribution 0). -/
theorem calculateRelevance_eq_specAmended (searchTerm : JStr) (fields : List (Option JStr)) :
    calculateRelevance searchTerm fields = specRelevanceAmended searchTerm fields := by
  show (fields.enum.map (fun p => fieldContribution (jsToLower searchTerm) p.2 p.1)).sum
      = (fields.enum.map (fun p => specFieldContributionAmended (jsToLower searchTerm) p.2 p.1)).sum
  congr 1
  apply List.map_congr_left
  intro p _
  exact fieldContribution_eq_specAmended (jsToLower searchTerm) p.2 p.1

/-- HTTP methods the handler branches on. -/
inductive HttpMethod
  | OPTIONS
  | POST
  | GET
  | PUT
  | DELETE
deriving DecidableEq

/-- The three entity categories (`type` tags `person`/`company`/`project`). -/
inductive EntityType
  | person
  | company
  | project
deriving DecidableEq

/-- A row of the `people` collection, projection selected by the handler.
`none` models a SQL NULL / absent value. -/
structure PersonRow where
  id : Nat
  name : Option JStr
  title : Option JStr
  company : Option JStr
  email : Option JStr
  phone : Option JStr
  linkedin : Option JStr
deriving DecidableEq

/-- A row of the `companies` collection, projection selected by the handler. -/
structure CompanyRow where
  id : Nat
  name : Option JStr
  description : Option JStr
  city : Option JStr
  state : Option JStr
  sectors : Option JStr
  website : Option JStr
deriving DecidableEq

/-- A row of the `projects` collection, projection selected by the handler. -/
structure ProjectRow where
  id : Nat
  title : Option JStr
  description : Option JStr
  location : Option JStr
  type : Option JStr
  status : Option JStr
  developer : Option JStr
  architect : Option JStr
deriving DecidableEq

/-- A supabase reply `{data, error}`: failures are reported in-band via
`error`; `data` may be null. -/
structure StoreReply (ρ : Type) where
  data : Option (List ρ)
  error : Bool
deriving DecidableEq

/-- A merged candidate record as built by the per-row mapping: the `type`
tag, a display name, the synthesized description and the computed score. -/
structure ResultItem where
  id : Nat
  type : EntityType
  name : Option JStr
  description : JStr
  relevanceScore : ℚ
deriving DecidableEq

/-- JS `v || d` on a nullable string: null, undefined and the empty string
fall back to the default. -/
def jsOr (v : Option JStr) (d : JStr) : JStr :=
  match v with
  | none => d
  | some s => if s.isEmpty then d else s

/-- The people lookup's `.then` handler: an error degrades to zero rows,
otherwise each row gets its tag, description and relevance score. -/
def mapPeopleReply (searchTerm : JStr) (r : StoreReply PersonRow) : List ResultItem :=
  if r.error then []
  else (r.data.getD []).map (fun item =>
    { id := item.id
      type := EntityType.person
      name := item.name
      description := jsOr item.title ("Professional".toList) ++ (" at ".toList)
        ++ jsOr item.company ("Unknown Company".toList)
      relevanceScore := calculateRelevance searchTerm [item.name, item.title, item.company] })

/-- The companies lookup's `.then` handler. -/
def mapCompaniesReply (searchTerm : JStr) (r : StoreReply CompanyRow) : List ResultItem :=
  if r.error then []
  else (r.data.getD []).map (fun item =>
    { id := item.id
      type := EntityType.company
      name := item.name
      description := jsOr item.description
        (jsOr item.sectors ("Company".toList) ++ (" based in ".toList)
          ++ jsOr item.city ("Unknown".toList) ++ (", ".toList) ++ jsOr item.state [])
      relevanceScore := calculateRelevance searchTerm [item.name, item.description, item.sectors] })

/-- The projects lookup's `.then` handler (`name` is aliased from `title`). -/
def mapProjectsReply (searchTerm : JStr) (r : StoreReply ProjectRow) : List ResultItem :=
  if r.error then []
  else (r.data.getD []).map (fun item =>
    { id := item.id
      type := EntityType.project
      name := item.title
      description := jsOr item.description
        (jsOr item.type ("Project".toList) ++ (" in ".toList)
          ++ jsOr item.location ("Unknown location".toList))
      relevanceScore := calculateRelevance searchTerm [item.title, item.description, item.location] })

/-- `Math.ceil(maxResults / 3)`: the row limit passed to each category lookup. -/
def perCategoryLimit (maxResults : Int) : Int := Int.ceil ((maxResults : ℚ) / 3)

/-- JS `l.slice(0, e)`: a negative end counts back from the end of the list. -/
def jsSlice0 {α : Type} (e : Int) (l : List α) : List α :=
  if e < 0 then l.take ((l.length : Int) + e).toNat else l.take e.toNat

/-- The comparator `(a, b) => b.relevanceScore - a.relevanceScore` as a
Boolean order: `a` may come before `b` iff its score is at least `b`'s. -/
def scoreLe (a b : ResultItem) : Bool := decide (b.relevanceScore ≤ a.relevanceScore)

/-- Non-increasing relevance order between adjacent results. -/
def scoreGe (a b : ResultItem) : Prop := b.relevanceScore ≤ a.relevanceScore

/-- `allResults`: the concatenation (`.flat()`) of the three mapped
category result lists, before sorting and truncation. -/
def mergedCandidates (searchTerm : JStr) (maxResults : Int)
    (storeP : Int → StoreReply PersonRow) (storeC : Int → StoreReply CompanyRow)
    (storeJ : Int → StoreReply ProjectRow) : List ResultItem :=
  mapPeopleReply searchTerm (storeP (perCategoryLimit maxResults))
    ++ mapCompaniesReply searchTerm (storeC (perCategoryLimit maxResults))
    ++ mapProjectsReply searchTerm (storeJ (perCategoryLimit maxResults))

/-- The `analytics` object (the real-time `timestamp` field is not modelled). -/
structure Analytics where
  totalResults : Nat
  people : Nat
  companies : Nat
  projects : Nat
  searchTerm : JStr
deriving DecidableEq

/-- The handler's response: status code plus the JSON body fields used by
any branch (`none` / `[]` for fields a branch's body omits). -/
structure Response where
  statusCode : Nat
  success : Option Bool
  error : Option JStr
  query : Option JStr
  results : List ResultItem
  analytics : Option Analytics
  totalResults : Option Nat
deriving DecidableEq

/-- The CORS preflight reply: 200 with an empty body. -/
def optionsResponse : Response :=
  { statusCode := 200, success := none, error := none, query := none,
    results := [], analytics := none, totalResults := none }

/-- The non-POST reply. -/
def methodNotAllowedResponse : Response :=
  { statusCode := 405, success := none, error := some ("Method not allowed".toList),
    query := none, results := [], analytics := none, totalResults := none }

/-- The missing/blank-query reply. -/
def validationResponse : Response :=
  { statusCode := 400, success := none, error := some ("Query parameter is required".toList),
    query := none, results := [], analytics := none, totalResults := none }

/-- The catch-all reply for exceptions inside the `try` block. -/
def serverErrorResponse : Response :=
  { statusCode := 500, success := some false,
    error := some ("Internal server error during search".toList),
    query := none, results := [], analytics := none, totalResults := none }

/-- The successful search path: fan out the three lookups at the
per-category limit, map, merge, sort by descending score, truncate to
`maxResults`, and attach analytics computed before truncation. -/
def searchCore (searchTerm : JStr) (includeResults : Bool) (maxResults : Int)
    (storeP : Int → StoreReply PersonRow) (storeC : Int → StoreReply CompanyRow)
    (storeJ : Int → StoreReply ProjectRow) : Response :=
  let allResults := mergedCandidates searchTerm maxResults storeP storeC storeJ
  let sortedResults := jsSlice0 maxResults (allResults.mergeSort scoreLe)
  { statusCode := 200
    success := some true
    error := none
    query := some searchTerm
    results := if includeResults then sortedResults else []
    analytics := some
      { totalResults := allResults.length
        people := (mapPeopleReply searchTerm (storeP (perCategoryLimit maxResults))).length
        companies := (mapCompaniesReply searchTerm (storeC (perCategoryLimit maxResults))).length
        projects := (mapProjectsReply searchTerm (storeJ (perCategoryLimit maxResults))).length
        searchTerm := searchTerm }
    totalResults := some allResults.length }

/-- The parsed JSON request body: `none` fields were absent (destructuring
defaults apply). -/
structure RequestBody where
  query : Option JStr
  includeResults : Option Bool
  maxResults : Option Int
deriving DecidableEq

/-- Result of `JSON.parse(event.body || chr(123) ++ chr(125))`:
either a parse exception or a parsed body. -/
inductive BodyParse
  | malformed
  | parsed (b : RequestBody)
deriving DecidableEq

/-- An incoming request: HTTP method plus the body's parse outcome. -/
structure Request where
  httpMethod : HttpMethod
  body : BodyParse
deriving DecidableEq

/-- The full handler: preflight, method check, body parse (a parse
exception reaches the catch block), blank-query validation, then the
search path with destructuring defaults `includeResults = true`,
`maxResults = 10`. -/
def handler (req : Request)
    (storeP : Int → StoreReply PersonRow) (storeC : Int → StoreReply CompanyRow)
    (storeJ : Int → StoreReply ProjectRow) : Response :=
  match req.httpMethod with
  | HttpMethod.OPTIONS => optionsResponse
  | HttpMethod.POST =>
    match req.body with
    | BodyParse.malformed => serverErrorResponse
    | BodyParse.parsed b =>
      match b.query with
      | none => validationResponse
      | some q =>
        if q.isEmpty || (jsTrim q).isEmpty then validationResponse
        else searchCore (jsTrim q) (b.includeResults.getD true) (b.maxResults.getD 10)
          storeP storeC storeJ
  | _ => methodNotAllowedResponse

/-- A people lookup that succeeds with zero rows. -/
def emptyPeopleStore : Int → StoreReply PersonRow := fun _ => { data := some [], error := false }

/-- A companies lookup that succeeds with zero rows. -/
def emptyCompaniesStore : Int → StoreReply CompanyRow := fun _ => { data := some [], error := false }

/-- A projects lookup that succeeds with zero rows. -/
def emptyProjectsStore : Int → StoreReply ProjectRow := fun _ => { data := some [], error := false }

/-- A people lookup that fails (in-band `error`). -/
def errorPeopleStore : Int → StoreReply PersonRow := fun _ => { data := none, error := true }

/-- A companies lookup that fails (in-band `error`). -/
def errorCompaniesStore : Int → StoreReply CompanyRow := fun _ => { data := none, error := true }

/-- A projects lookup that fails (in-band `error`). -/
def errorProjectsStore : Int → StoreReply ProjectRow := fun _ => { data := none, error := true }

/-- The score comparator is transitive. -/
theorem scoreLe_trans : ∀ (a b c : ResultItem), scoreLe a b → scoreLe b c → scoreLe a c := by
  intro a b c hab hbc
  simp only [scoreLe, decide_eq_true_eq] at *
  exact le_trans hbc hab

/-- The score comparator is total. -/
theorem scoreLe_total : ∀ (a b : ResultItem), scoreLe a b || scoreLe b a := by
  intro a b
  simp only [scoreLe, Bool.or_eq_true, decide_eq_true_eq]
  exact le_total _ _

/-- Sorting with the score comparator yields non-increasing scores. -/
theorem pairwise_scoreGe_mergeSort (l : List ResultItem) :
    (l.mergeSort scoreLe).Pairwise scoreGe := by
  have hs := List.sorted_mergeSort scoreLe_trans scoreLe_total l
  exact hs.imp (fun h => by simpa [scoreLe, scoreGe] using h)

/-- `slice(0, e)` preserves pairwise orderedness. -/
theorem pairwise_jsSlice0 {R : ResultItem → ResultItem → Prop} (e : Int)
    (l : List ResultItem) (h : l.Pairwise R) : (jsSlice0 e l).Pairwise R := by
  unfold jsSlice0
  split
  · exact h.sublist (List.take_sublist _ _)
  · exact h.sublist (List.take_sublist _ _)

/-- Every response of the handler carries a results list with non-increasing
relevance scores (non-200 branches carry the empty list). -/
theorem handler_results_pairwise (req : Request)
    (sP : Int → StoreReply PersonRow) (sC : Int → StoreReply CompanyRow)
    (sJ : Int → StoreReply ProjectRow) :
    (handler req sP sC sJ).results.Pairwise scoreGe := by
  obtain ⟨m, body⟩ := req
  cases m
  case OPTIONS => simp [handler, optionsResponse]
  case GET => simp [handler, methodNotAllowedResponse]
  case PUT => simp [handler, methodNotAllowedResponse]
  case DELETE => simp [handler, methodNotAllowedResponse]
  case POST =>
    cases body with
    | malformed => simp [handler, serverErrorResponse]
    | parsed b =>
      cases hq : b.query with
      | none => simp [handler, hq, validationResponse]
      | some q =>
        by_cases hb : (q.isEmpty || (jsTrim q).isEmpty) = true
        · simp [handler, hq, hb, validationResponse]
        · have hb' : ¬(q = [] ∨ jsTrim q = []) := by simpa using hb
          have hres : (handler ⟨HttpMethod.POST, BodyParse.parsed b⟩ sP sC sJ).results
              = if b.includeResults.getD true then
                  jsSlice0 (b.maxResults.getD 10)
                    ((mergedCandidates (jsTrim q) (b.maxResults.getD 10) sP sC sJ).mergeSort scoreLe)
                else [] := by
            simp [handler, hq, hb', searchCore]
          rw [hres]
          cases b.includeResults.getD true
          · simp
          · simpa using pairwise_jsSlice0 _ _ (pairwise_scoreGe_mergeSort _)

/-- C4: for every request that produces a 200 response, the returned results
sequence is sorted in non-increasing order of `relevanceScore`. -/
theorem results_sorted_of_ok (req : Request)
    (sP : Int → StoreReply PersonRow) (sC : Int → StoreReply CompanyRow)
    (sJ : Int → StoreReply ProjectRow)
    (h : (handler req sP sC sJ).statusCode = 200) :
    (handler req sP sC sJ).results.Pairwise scoreGe :=
  handler_results_pairwise req sP sC sJ

/-- Witness for C4 at a concrete request and store. -/
theorem results_sorted_of_ok_witness :
    (handler ⟨HttpMethod.POST, BodyParse.parsed ⟨some ("acme".toList), none, none⟩⟩
      emptyPeopleStore emptyCompaniesStore emptyProjectsStore).results.Pairwise scoreGe :=
  results_sorted_of_ok _ _ _ _ rfl

/-- C3: a POST whose body lacks `query` or whose query trims to empty is
answered 400 with an error and empty results, and the stores are never
consulted (the two handler runs with unrelated stores coincide). -/
theorem blank_query_rejected (b : RequestBody)
    (h : b.query = none ∨ ∃ q, b.query = some q ∧ (q.isEmpty || (jsTrim q).isEmpty) = true)
    (sP : Int → StoreReply PersonRow) (sC : Int → StoreReply CompanyRow)
    (sJ : Int → StoreReply ProjectRow)
    (sP' : Int → StoreReply PersonRow) (sC' : Int → StoreReply CompanyRow)
    (sJ' : Int → StoreReply ProjectRow) :
    handler ⟨HttpMethod.POST, BodyParse.parsed b⟩ sP sC sJ = validationResponse ∧
    validationResponse.statusCode = 400 ∧
    validationResponse.error = some ("Query parameter is required".toList) ∧
    validationResponse.results = [] ∧
    handler ⟨HttpMethod.POST, BodyParse.parsed b⟩ sP sC sJ
      = handler ⟨HttpMethod.POST, BodyParse.parsed b⟩ sP' sC' sJ' := by
  have key : ∀ (tP : Int → StoreReply PersonRow) (tC : Int → StoreReply CompanyRow)
      (tJ : Int → StoreReply ProjectRow),
      handler ⟨HttpMethod.POST, BodyParse.parsed b⟩ tP tC tJ = validationResponse := by
    intro tP tC tJ
    rcases h with h | ⟨q, hq, hblank⟩
    · simp [handler, h]
    · simp [handler, hq, hblank]
  exact ⟨key sP sC sJ, rfl, rfl, rfl, (key sP sC sJ).trans (key sP' sC' sJ').symm⟩

/-- Witness for C3 at a whitespace-only query. -/
theorem blank_query_rejected_witness :
    handler ⟨HttpMethod.POST, BodyParse.parsed ⟨some ("   ".toList), none, none⟩⟩
        emptyPeopleStore emptyCompaniesStore emptyProjectsStore = validationResponse ∧
    validationResponse.statusCode = 400 ∧
    validationResponse.error = some ("Query parameter is required".toList) ∧
    validationResponse.results = [] ∧
    handler ⟨HttpMethod.POST, BodyParse.parsed ⟨some ("   ".toList), none, none⟩⟩
        emptyPeopleStore emptyCompaniesStore emptyProjectsStore
      = handler ⟨HttpMethod.POST, BodyParse.parsed ⟨some ("   ".toList), none, none⟩⟩
        errorPeopleStore errorCompaniesStore errorProjectsStore :=
  blank_query_rejected _ (Or.inr ⟨_, rfl, by decide⟩) _ _ _ _ _ _

/-- C8 counterexample: a malformed body is answered with status 500, not 400
as the claim states. -/
theorem malformed_body_not_400 :
    (handler ⟨HttpMethod.POST, BodyParse.malformed⟩
      emptyPeopleStore emptyCompaniesStore emptyProjectsStore).statusCode = 500 ∧
    (handler ⟨HttpMethod.POST, BodyParse.malformed⟩
      emptyPeopleStore emptyCompaniesStore emptyProjectsStore).statusCode ≠ 400 :=
  ⟨rfl, by decide⟩

/-- C8 amended: a POST whose body fails to parse is rejected with status 500
(the generic internal error) before any lookup runs: the response is the
constant catch-all reply and is independent of the stores. -/
theorem malformed_body_500
    (sP : Int → StoreReply PersonRow) (sC : Int → StoreReply CompanyRow)
    (sJ : Int → StoreReply ProjectRow)
    (sP' : Int → StoreReply PersonRow) (sC' : Int → StoreReply CompanyRow)
    (sJ' : Int → StoreReply ProjectRow) :
    handler ⟨HttpMethod.POST, BodyParse.malformed⟩ sP sC sJ = serverErrorResponse ∧
    serverErrorResponse.statusCode = 500 ∧
    serverErrorResponse.success = some false ∧
    serverErrorResponse.results = [] ∧
    handler ⟨HttpMethod.POST, BodyParse.malformed⟩ sP sC sJ
      = handler ⟨HttpMethod.POST, BodyParse.malformed⟩ sP' sC' sJ' :=
  ⟨rfl, rfl, rfl, rfl, rfl⟩

/-- On the POST path with a parsed body and non-blank query, the handler is
the search core applied to the trimmed query and the destructuring defaults. -/
theorem handler_nonblank (b : RequestBody) (q : JStr) (hq : b.query = some q)
    (hb : (q.isEmpty || (jsTrim q).isEmpty) = false)
    (sP : Int → StoreReply PersonRow) (sC : Int → StoreReply CompanyRow)
    (sJ : Int → StoreReply ProjectRow) :
    handler ⟨HttpMethod.POST, BodyParse.parsed b⟩ sP sC sJ
      = searchCore (jsTrim q) (b.includeResults.getD true) (b.maxResults.getD 10) sP sC sJ := by
  have hb' : ¬(q = [] ∨ jsTrim q = []) := by simpa using hb
  simp [handler, hq, hb']

/-- A failed people lookup contributes zero rows. -/
theorem mapPeopleReply_error (t : JStr) (r : StoreReply PersonRow) (h : r.error = true) :
    mapPeopleReply t r = [] := by
  simp [mapPeopleReply, h]

/-- A failed companies lookup contributes zero rows. -/
theorem mapCompaniesReply_error (t : JStr) (r : StoreReply CompanyRow) (h : r.error = true) :
    mapCompaniesReply t r = [] := by
  simp [mapCompaniesReply, h]

/-- A failed projects lookup contributes zero rows. -/
theorem mapProjectsReply_error (t : JStr) (r : StoreReply ProjectRow) (h : r.error = true) :
    mapProjectsReply t r = [] := by
  simp [mapProjectsReply, h]

/-- A failing people lookup produces the same response as a lookup that
succeeded with zero rows. -/
theorem searchCore_people_error (t : JStr) (incl : Bool) (mr : Int)
    (sP : Int → StoreReply PersonRow) (sC : Int → StoreReply CompanyRow)
    (sJ : Int → StoreReply ProjectRow) (h : (sP (perCategoryLimit mr)).error = true) :
    searchCore t incl mr sP sC sJ = searchCore t incl mr emptyPeopleStore sC sJ := by
  have h1 := mapPeopleReply_error t _ h
  have h2 : mapPeopleReply t (emptyPeopleStore (perCategoryLimit mr)) = [] := rfl
  simp only [searchCore, mergedCandidates, h1, h2]

/-- A failing companies lookup produces the same response as a lookup that
succeeded with zero rows. -/
theorem searchCore_companies_error (t : JStr) (incl : Bool) (mr : Int)
    (sP : Int → StoreReply PersonRow) (sC : Int → StoreReply CompanyRow)
    (sJ : Int → StoreReply ProjectRow) (h : (sC (perCategoryLimit mr)).error = true) :
    searchCore t incl mr sP sC sJ = searchCore t incl mr sP emptyCompaniesStore sJ := by
  have h1 := mapCompaniesReply_error t _ h
  have h2 : mapCompaniesReply t (emptyCompaniesStore (perCategoryLimit mr)) = [] := rfl
  simp only [searchCore, mergedCandidates, h1, h2]

/-- A failing projects lookup produces the same response as a lookup that
succeeded with zero rows. -/
theorem searchCore_projects_error (t : JStr) (incl : Bool) (mr : Int)
    (sP : Int → StoreReply PersonRow) (sC : Int → StoreReply CompanyRow)
    (sJ : Int → StoreReply ProjectRow) (h : (sJ (perCategoryLimit mr)).error = true) :
    searchCore t incl mr sP sC sJ = searchCore t incl mr sP sC emptyProjectsStore := by
  have h1 := mapProjectsReply_error t _ h
  have h2 : mapProjectsReply t (emptyProjectsStore (perCategoryLimit mr)) = [] := rfl
  simp only [searchCore, mergedCandidates, h1, h2]

/-- C2: on a POST with non-blank query, the failure of any one category
lookup leaves a 200 success response identical to the one obtained when
that category returns zero rows, and that category's analytics count is 0:
the failure is not surfaced as an overall error. -/
theorem lookup_failure_degrades (b : RequestBody) (q : JStr)
    (hq : b.query = some q) (hb : (q.isEmpty || (jsTrim q).isEmpty) = false)
    (sP : Int → StoreReply PersonRow) (sC : Int → StoreReply CompanyRow)
    (sJ : Int → StoreReply ProjectRow) :
    ((sP (perCategoryLimit (b.maxResults.getD 10))).error = true →
      handler ⟨HttpMethod.POST, BodyParse.parsed b⟩ sP sC sJ
        = handler ⟨HttpMethod.POST, BodyParse.parsed b⟩ emptyPeopleStore sC sJ ∧
      (handler ⟨HttpMethod.POST, BodyParse.parsed b⟩ sP sC sJ).statusCode = 200 ∧
      (handler ⟨HttpMethod.POST, BodyParse.parsed b⟩ sP sC sJ).success = some true ∧
      (handler ⟨HttpMethod.POST, BodyParse.parsed b⟩ sP sC sJ).analytics.map Analytics.people
        = some 0) ∧
    ((sC (perCategoryLimit (b.maxResults.getD 10))).error = true →
      handler ⟨HttpMethod.POST, BodyParse.parsed b⟩ sP sC sJ
        = handler ⟨HttpMethod.POST, BodyParse.parsed b⟩ sP emptyCompaniesStore sJ ∧
      (handler ⟨HttpMethod.POST, BodyParse.parsed b⟩ sP sC sJ).statusCode = 200 ∧
      (handler ⟨HttpMethod.POST, BodyParse.parsed b⟩ sP sC sJ).success = some true ∧
      (handler ⟨HttpMethod.POST, BodyParse.parsed b⟩ sP sC sJ).analytics.map Analytics.companies
        = some 0) ∧
    ((sJ (perCategoryLimit (b.maxResults.getD 10))).error = true →
      handler ⟨HttpMethod.POST, BodyParse.parsed b⟩ sP sC sJ
        = handler ⟨HttpMethod.POST, BodyParse.parsed b⟩ sP sC emptyProjectsStore ∧
      (handler ⟨HttpMethod.POST, BodyParse.parsed b⟩ sP sC sJ).statusCode = 200 ∧
      (handler ⟨HttpMethod.POST, BodyParse.parsed b⟩ sP sC sJ).success = some true ∧
      (handler ⟨HttpMethod.POST, BodyParse.parsed b⟩ sP sC sJ).analytics.map Analytics.projects
        = some 0) := by
  have hh := handler_nonblank b q hq hb sP sC sJ
  have hhP := handler_nonblank b q hq hb emptyPeopleStore sC sJ
  have hhC := handler_nonblank b q hq hb sP emptyCompaniesStore sJ
  have hhJ := handler_nonblank b q hq hb sP sC emptyProjectsStore
  refine ⟨fun hPerr => ?_, fun hCerr => ?_, fun hJerr => ?_⟩
  · refine ⟨?_, by rw [hh]; rfl, by rw [hh]; rfl, ?_⟩
    · rw [hh, hhP, searchCore_people_error _ _ _ _ _ _ hPerr]
    · rw [hh]
      show some ((mapPeopleReply (jsTrim q)
        (sP (perCategoryLimit (b.maxResults.getD 10)))).length) = some 0
      rw [mapPeopleReply_error _ _ hPerr]
      rfl
  · refine ⟨?_, by rw [hh]; rfl, by rw [hh]; rfl, ?_⟩
    · rw [hh, hhC, searchCore_companies_error _ _ _ _ _ _ hCerr]
    · rw [hh]
      show some ((mapCompaniesReply (jsTrim q)
        (sC (perCategoryLimit (b.maxResults.getD 10)))).length) = some 0
      rw [mapCompaniesReply_error _ _ hCerr]
      rfl
  · refine ⟨?_, by rw [hh]; rfl, by rw [hh]; rfl, ?_⟩
    · rw [hh, hhJ, searchCore_projects_error _ _ _ _ _ _ hJerr]
    · rw [hh]
      show some ((mapProjectsReply (jsTrim q)
        (sJ (perCategoryLimit (b.maxResults.getD 10)))).length) = some 0
      rw [mapProjectsReply_error _ _ hJerr]
      rfl

/-- Witness for C2: a failing people lookup at a concrete request. -/
theorem lookup_failure_degrades_witness :
    handler ⟨HttpMethod.POST, BodyParse.parsed ⟨some ("acme".toList), none, none⟩⟩
        errorPeopleStore emptyCompaniesStore emptyProjectsStore
      = handler ⟨HttpMethod.POST, BodyParse.parsed ⟨some ("acme".toList), none, none⟩⟩
        emptyPeopleStore emptyCompaniesStore emptyProjectsStore ∧
    (handler ⟨HttpMethod.POST, BodyParse.parsed ⟨some ("acme".toList), none, none⟩⟩
        errorPeopleStore emptyCompaniesStore emptyProjectsStore).statusCode = 200 ∧
    (handler ⟨HttpMethod.POST, BodyParse.parsed ⟨some ("acme".toList), none, none⟩⟩
        errorPeopleStore emptyCompaniesStore emptyProjectsStore).success = some true ∧
    (handler ⟨HttpMethod.POST, BodyParse.parsed ⟨some ("acme".toList), none, none⟩⟩
        errorPeopleStore emptyCompaniesStore emptyProjectsStore).analytics.map Analytics.people
      = some 0 :=
  (lookup_failure_degrades _ _ rfl (by decide) _ _ _).1 rfl

/-- C5: on a POST with non-blank query and positive `maxResults`, the
response is a 200 whose results list has at most `maxResults` entries,
whose `totalResults` is the merged pre-truncation candidate count, and
that count bounds the returned length. -/
theorem results_bounded (b : RequestBody) (q : JStr) (mr : Int)
    (sP : Int → StoreReply PersonRow) (sC : Int → StoreReply CompanyRow)
    (sJ : Int → StoreReply ProjectRow)
    (hq : b.query = some q) (hb : (q.isEmpty || (jsTrim q).isEmpty) = false)
    (hmr : b.maxResults = some mr) (hpos : 0 < mr) :
    (handler ⟨HttpMethod.POST, BodyParse.parsed b⟩ sP sC sJ).statusCode = 200 ∧
    (((handler ⟨HttpMethod.POST, BodyParse.parsed b⟩ sP sC sJ).results.length : Int) ≤ mr) ∧
    (handler ⟨HttpMethod.POST, BodyParse.parsed b⟩ sP sC sJ).totalResults
      = some (mergedCandidates (jsTrim q) mr sP sC sJ).length ∧
    (handler ⟨HttpMethod.POST, BodyParse.parsed b⟩ sP sC sJ).results.length
      ≤ (mergedCandidates (jsTrim q) mr sP sC sJ).length := by
  have hh := handler_nonblank b q hq hb sP sC sJ
  rw [hmr, Option.getD_some] at hh
  rw [hh]
  refine ⟨rfl, ?_, rfl, ?_⟩
  all_goals {
    have hres : (searchCore (jsTrim q) (b.includeResults.getD true) mr sP sC sJ).results
        = if b.includeResults.getD true then
            jsSlice0 mr ((mergedCandidates (jsTrim q) mr sP sC sJ).mergeSort scoreLe)
          else [] := rfl
    cases hI : b.includeResults.getD true
    case false =>
      rw [hI] at hres
      simp only [hres, Bool.false_eq_true, if_false, List.length_nil]
      first
        | exact_mod_cast hpos.le
        | exact Nat.zero_le _
    case true =>
      rw [hI] at hres
      have hnlt : ¬ mr < 0 := not_lt.mpr hpos.le
      simp only [hres, if_true, jsSlice0, hnlt] at *
      first
        | { have h1 := List.length_take_le mr.toNat
              ((mergedCandidates (jsTrim q) mr sP sC sJ).mergeSort scoreLe)
            have h2 : ((List.take mr.toNat
                ((mergedCandidates (jsTrim q) mr sP sC sJ).mergeSort scoreLe)).length : Int)
                ≤ (mr.toNat : Int) := by exact_mod_cast h1
            rwa [Int.toNat_of_nonneg hpos.le] at h2 }
        | exact (List.length_take_le' _ _).trans (le_of_eq (by simp)) }

/-- Witness for C5 at `maxResults = 10` with empty lookups. -/
theorem results_bounded_witness :
    (handler ⟨HttpMethod.POST, BodyParse.parsed ⟨some ("acme".toList), none, some 10⟩⟩
      emptyPeopleStore emptyCompaniesStore emptyProjectsStore).statusCode = 200 ∧
    (((handler ⟨HttpMethod.POST, BodyParse.parsed ⟨some ("acme".toList), none, some 10⟩⟩
      emptyPeopleStore emptyCompaniesStore emptyProjectsStore).results.length : Int) ≤ 10) ∧
    (handler ⟨HttpMethod.POST, BodyParse.parsed ⟨some ("acme".toList), none, some 10⟩⟩
      emptyPeopleStore emptyCompaniesStore emptyProjectsStore).totalResults
      = some (mergedCandidates (jsTrim ("acme".toList)) 10
          emptyPeopleStore emptyCompaniesStore emptyProjectsStore).length ∧
    (handler ⟨HttpMethod.POST, BodyParse.parsed ⟨some ("acme".toList), none, some 10⟩⟩
      emptyPeopleStore emptyCompaniesStore emptyProjectsStore).results.length
      ≤ (mergedCandidates (jsTrim ("acme".toList)) 10
          emptyPeopleStore emptyCompaniesStore emptyProjectsStore).length :=
  results_bounded _ _ 10 _ _ _ rfl (by decide) rfl (by decide)

/-- C6: the handler consults each category lookup only at the row limit
`ceil(maxResults / 3)` (with the default `maxResults = 10` when absent):
two store triples agreeing at that limit produce identical responses; and
the default limit is `ceil(10 / 3) = 4`. -/
theorem lookup_limit_is_ceil_third (m : HttpMethod) (b : RequestBody)
    (sP : Int → StoreReply PersonRow) (sC : Int → StoreReply CompanyRow)
    (sJ : Int → StoreReply ProjectRow)
    (sP' : Int → StoreReply PersonRow) (sC' : Int → StoreReply CompanyRow)
    (sJ' : Int → StoreReply ProjectRow)
    (hP : sP (perCategoryLimit (b.maxResults.getD 10))
      = sP' (perCategoryLimit (b.maxResults.getD 10)))
    (hC : sC (perCategoryLimit (b.maxResults.getD 10))
      = sC' (perCategoryLimit (b.maxResults.getD 10)))
    (hJ : sJ (perCategoryLimit (b.maxResults.getD 10))
      = sJ' (perCategoryLimit (b.maxResults.getD 10))) :
    handler ⟨m, BodyParse.parsed b⟩ sP sC sJ = handler ⟨m, BodyParse.parsed b⟩ sP' sC' sJ' ∧
    perCategoryLimit 10 = 4 := by
  constructor
  · cases m
    case OPTIONS => rfl
    case GET => rfl
    case PUT => rfl
    case DELETE => rfl
    case POST =>
      cases hq : b.query with
      | none => simp [handler, hq]
      | some q =>
        by_cases hblank : q = [] ∨ jsTrim q = []
        · simp [handler, hq, hblank]
        · simp [handler, hq, hblank, searchCore, mergedCandidates, hP, hC, hJ]
  · unfold perCategoryLimit
    rw [Int.ceil_eq_iff]
    norm_num

/-- Witness for C6 with two (equal) concrete store triples. -/
theorem lookup_limit_is_ceil_third_witness :
    handler ⟨HttpMethod.POST, BodyParse.parsed ⟨some ("acme".toList), none, none⟩⟩
        emptyPeopleStore emptyCompaniesStore emptyProjectsStore
      = handler ⟨HttpMethod.POST, BodyParse.parsed ⟨some ("acme".toList), none, none⟩⟩
        emptyPeopleStore emptyCompaniesStore emptyProjectsStore ∧
    perCategoryLimit 10 = 4 :=
  lookup_limit_is_ceil_third HttpMethod.POST _ _ _ _ _ _ _ rfl rfl rfl

/-- C7: flipping `includeResults` from true to false empties the results
list and changes nothing else: the response with the flag false is exactly
the response with the flag true, with `results` replaced by `[]`
(analytics and `totalResults` are computed the same way). -/
theorem includeResults_false_empties_results_only (m : HttpMethod) (b : RequestBody)
    (sP : Int → StoreReply PersonRow) (sC : Int → StoreReply CompanyRow)
    (sJ : Int → StoreReply ProjectRow) :
    (handler ⟨m, BodyParse.parsed { b with includeResults := some false }⟩ sP sC sJ).results
      = [] ∧
    handler ⟨m, BodyParse.parsed { b with includeResults := some false }⟩ sP sC sJ
      = { handler ⟨m, BodyParse.parsed { b with includeResults := some true }⟩ sP sC sJ
          with results := [] } := by
  have key : handler ⟨m, BodyParse.parsed { b with includeResults := some false }⟩ sP sC sJ
      = { handler ⟨m, BodyParse.parsed { b with includeResults := some true }⟩ sP sC sJ
          with results := [] } := by
    cases m
    case OPTIONS => rfl
    case GET => rfl
    case PUT => rfl
    case DELETE => rfl
    case POST =>
      cases hq : b.query with
      | none => simp [handler, hq, validationResponse]
      | some q =>
        by_cases hblank : q = [] ∨ jsTrim q = []
        · simp [handler, hq, hblank, validationResponse]
        · simp [handler, hq, hblank, searchCore]
  exact ⟨by rw [key], key⟩

/-- C9: whenever a response carries analytics, the per-category counts sum
to the pre-truncation total, and the response's top-level `totalResults`
equals that total: the merged list is exactly the concatenation of the
three per-category lists. -/
theorem analytics_counts_sum (req : Request)
    (sP : Int → StoreReply PersonRow) (sC : Int → StoreReply CompanyRow)
    (sJ : Int → StoreReply ProjectRow) (a : Analytics)
    (h : (handler req sP sC sJ).analytics = some a) :
    a.people + a.companies + a.projects = a.totalResults ∧
    (handler req sP sC sJ).totalResults = some a.totalResults := by
  obtain ⟨m, body⟩ := req
  cases m
  case OPTIONS => simp [handler, optionsResponse] at h
  case GET => simp [handler, methodNotAllowedResponse] at h
  case PUT => simp [handler, methodNotAllowedResponse] at h
  case DELETE => simp [handler, methodNotAllowedResponse] at h
  case POST =>
    cases body with
    | malformed => simp [handler, serverErrorResponse] at h
    | parsed b =>
      cases hq : b.query with
      | none => simp [handler, hq, validationResponse] at h
      | some q =>
        by_cases hblank : q = [] ∨ jsTrim q = []
        · simp [handler, hq, hblank, validationResponse] at h
        · have hh : handler ⟨HttpMethod.POST, BodyParse.parsed b⟩ sP sC sJ
              = searchCore (jsTrim q) (b.includeResults.getD true) (b.maxResults.getD 10)
                  sP sC sJ := by
            simp [handler, hq, hblank]
          rw [hh] at h ⊢
          simp only [searchCore, Option.some.injEq] at h
          obtain rfl := h.symm
          refine ⟨?_, rfl⟩
          simp [mergedCandidates, Nat.add_assoc]

/-- Witness for C9 at a concrete request with empty lookups. -/
theorem analytics_counts_sum_witness :
    (0 : Nat) + 0 + 0 = 0 ∧
    (handler ⟨HttpMethod.POST, BodyParse.parsed ⟨some ("acme".toList), none, none⟩⟩
      emptyPeopleStore emptyCompaniesStore emptyProjectsStore).totalResults = some 0 :=
  analytics_counts_sum _ _ _ _
    { totalResults := 0, people := 0, companies := 0, projects := 0,
      searchTerm := jsTrim ("acme".toList) } rfl

/-- A people reply whose effective row list is empty contributes no rows. -/
theorem mapPeopleReply_nil (t : JStr) (r : StoreReply PersonRow)
    (h : (r.data.getD []).length = 0) : mapPeopleReply t r = [] := by
  rw [List.length_eq_zero] at h
  simp [mapPeopleReply, h]

/-- A companies reply whose effective row list is empty contributes no rows. -/
theorem mapCompaniesReply_nil (t : JStr) (r : StoreReply CompanyRow)
    (h : (r.data.getD []).length = 0) : mapCompaniesReply t r = [] := by
  rw [List.length_eq_zero] at h
  simp [mapCompaniesReply, h]

/-- A projects reply whose effective row list is empty contributes no rows. -/
theorem mapProjectsReply_nil (t : JStr) (r : StoreReply ProjectRow)
    (h : (r.data.getD []).length = 0) : mapProjectsReply t r = [] := by
  rw [List.length_eq_zero] at h
  simp [mapProjectsReply, h]

/-- A non-positive `maxResults` makes the per-category limit non-positive. -/
theorem perCategoryLimit_nonpos (mr : Int) (h : mr ≤ 0) : perCategoryLimit mr ≤ 0 := by
  unfold perCategoryLimit
  refine Int.ceil_le.mpr ?_
  rw [Int.cast_zero, div_nonpos_iff]
  right
  exact ⟨by exact_mod_cast h, by norm_num⟩

/-- C10: the positive-integer precondition on `maxResults` is never
checked: a POST with non-blank query and `maxResults ≤ 0` still yields a
200 success response; when each lookup honours its (then non-positive) row
limit the results list is empty, and `totalResults` still reflects whatever
the lookups returned (the merged candidate count). -/
theorem nonpositive_maxResults_still_200 (b : RequestBody) (q : JStr) (mr : Int)
    (sP : Int → StoreReply PersonRow) (sC : Int → StoreReply CompanyRow)
    (sJ : Int → StoreReply ProjectRow)
    (hq : b.query = some q) (hb : (q.isEmpty || (jsTrim q).isEmpty) = false)
    (hmr : b.maxResults = some mr) (hmr0 : mr ≤ 0)
    (hP : ((sP (perCategoryLimit mr)).data.getD []).length ≤ (perCategoryLimit mr).toNat)
    (hC : ((sC (perCategoryLimit mr)).data.getD []).length ≤ (perCategoryLimit mr).toNat)
    (hJ : ((sJ (perCategoryLimit mr)).data.getD []).length ≤ (perCategoryLimit mr).toNat) :
    (handler ⟨HttpMethod.POST, BodyParse.parsed b⟩ sP sC sJ).statusCode = 200 ∧
    (handler ⟨HttpMethod.POST, BodyParse.parsed b⟩ sP sC sJ).success = some true ∧
    (handler ⟨HttpMethod.POST, BodyParse.parsed b⟩ sP sC sJ).results = [] ∧
    (handler ⟨HttpMethod.POST, BodyParse.parsed b⟩ sP sC sJ).totalResults
      = some (mergedCandidates (jsTrim q) mr sP sC sJ).length := by
  have hh := handler_nonblank b q hq hb sP sC sJ
  rw [hmr, Option.getD_some] at hh
  rw [hh]
  have ht : (perCategoryLimit mr).toNat = 0 := Int.toNat_of_nonpos (perCategoryLimit_nonpos mr hmr0)
  rw [ht] at hP hC hJ
  have hm : mergedCandidates (jsTrim q) mr sP sC sJ = [] := by
    rw [mergedCandidates, mapPeopleReply_nil _ _ (Nat.le_zero.mp hP),
      mapCompaniesReply_nil _ _ (Nat.le_zero.mp hC),
      mapProjectsReply_nil _ _ (Nat.le_zero.mp hJ)]
    rfl
  refine ⟨rfl, rfl, ?_, rfl⟩
  have hres : (searchCore (jsTrim q) (b.includeResults.getD true) mr sP sC sJ).results
      = if b.includeResults.getD true then
          jsSlice0 mr ((mergedCandidates (jsTrim q) mr sP sC sJ).mergeSort scoreLe)
        else [] := rfl
  rw [hres, hm]
  simp [jsSlice0]

/-- Witness for C10 at `maxResults = 0` with empty lookups. -/
theorem nonpositive_maxResults_still_200_witness :
    (handler ⟨HttpMethod.POST, BodyParse.parsed ⟨some ("acme".toList), none, some 0⟩⟩
      emptyPeopleStore emptyCompaniesStore emptyProjectsStore).statusCode = 200 ∧
    (handler ⟨HttpMethod.POST, BodyParse.parsed ⟨some ("acme".toList), none, some 0⟩⟩
      emptyPeopleStore emptyCompaniesStore emptyProjectsStore).success = some true ∧
    (handler ⟨HttpMethod.POST, BodyParse.parsed ⟨some ("acme".toList), none, some 0⟩⟩
      emptyPeopleStore emptyCompaniesStore emptyProjectsStore).results = [] ∧
    (handler ⟨HttpMethod.POST, BodyParse.parsed ⟨some ("acme".toList), none, some 0⟩⟩
      emptyPeopleStore emptyCompaniesStore emptyProjectsStore).totalResults
      = some (mergedCandidates (jsTrim ("acme".toList)) 0
          emptyPeopleStore emptyCompaniesStore emptyProjectsStore).length :=
  nonpositive_maxResults_still_200 _ _ 0 _ _ _ rfl (by decide) rfl (by decide)
    (Nat.zero_le _) (Nat.zero_le _) (Nat.zero_le _)

/-- C1 counterexample: at the empty query term and the single field list
holding the empty string, `calculateRelevance` scores 0 (JS skips falsy
fields, including the empty string) while the claim's formula scores 100
(an exact match of the lower-cased empty field against the empty term). -/
theorem calculateRelevance_ne_specRelevance :
    calculateRelevance [] [some []] = 0 ∧ specRelevance [] [some []] = 100 ∧
    calculateRelevance [] [some []] ≠ specRelevance [] [some []] := by
  have h0 : calculateRelevance [] [some []] = 0 := by
    simp [calculateRelevance, fieldContribution]
  have h100 : specRelevance [] [some []] = 100 := by
    simp [specRelevance, specFieldContribution, jsToLower]
  refine ⟨h0, h100, ?_⟩
  rw [h0, h100]
  norm_num

end IntelligentSearch
